import Mathlib

set_option maxRecDepth 16000

/-!
Shallow embedding of the Plan Validation & Quality-Evaluation Engine of the
Readme-Builder repository (directory `project_forge`), together with proofs
about the claims of its specification.

The embedded code lives in:
  * `src/project_forge/src/models/project_models.py`   (data model)
  * `src/project_forge/src/tools/consistency_tool.py`  (ConsistencyValidator)
  * `src/project_forge/src/tools/rubric_tool.py`       (RubricScorer)
  * `src/project_forge/src/agents/evaluator_agent.py`  (EvaluationOrchestrator)

Modelling conventions:
  * Python `int` is `Int` (step indices, dependency values, scores).
  * Python strings are Lean `String`; helper functions (`pyLower`,
    `pyContains`, `pyStrip`, `pyWordCount`, ...) mirror the Python string
    methods used by the source (`str.lower`, `in`, `str.strip`,
    `str.split()`, `str.startswith`, `char.isupper`) for the ASCII texts the
    engine manipulates.
  * Floating-point percentage/variance comparisons in the source
    (`guidance_coverage < 50`, `variance > 16`, `avg_steps`) are modelled by
    the exact rational comparison (cross-multiplied integer arithmetic);
    the float formatting directives `:.0f` / `:.1f` used only inside
    feedback strings are modelled by nearest-integer / one-decimal
    renderings.
  * A raised Python exception is modelled by `Except.error`; the only
    fallible function of the engine is `evaluate_teaching_clarity`, which
    reads the undefined name `learning_coverage`.
-/

/-! ## Python string helpers -/

/-- The whitespace characters recognised by Python's `str.split()` /
`str.strip()` for ASCII text. -/
def pyIsSpace (c : Char) : Bool :=
  c = ' ' || c = '\t' || c = '\n' || c = '\x0d' || c = '\x0b' || c = '\x0c'

/-- Helper for `splitWsChars`: `cur` is the (reversed) word currently being
scanned. -/
def splitWsAux : List Char → List Char → List (List Char)
  | cur, [] => if cur.isEmpty then [] else [cur.reverse]
  | cur, c :: cs =>
    if pyIsSpace c then
      if cur.isEmpty then splitWsAux [] cs else cur.reverse :: splitWsAux [] cs
    else splitWsAux (c :: cur) cs

/-- Split a character list into whitespace-separated words
(Python `str.split()` with no argument: runs of whitespace separate words,
no empty words are produced). -/
def splitWsChars (l : List Char) : List (List Char) := splitWsAux [] l

/-- `len(text.split())` in Python. -/
def pyWordCount (s : String) : Nat := (splitWsChars s.data).length

/-- `text.lower()` (ASCII). -/
def pyLower (s : String) : String := ⟨s.data.map Char.toLower⟩

/-- Whether `pat` occurs as a contiguous sublist of `l` (Python `pat in s`). -/
def subListAt : List Char → List Char → Bool
  | pat, [] => pat.isEmpty
  | pat, c :: cs => pat.isPrefixOf (c :: cs) || subListAt pat cs

/-- Python substring containment `pat in s`. -/
def pyContains (s pat : String) : Bool := subListAt pat.data s.data

/-- Python `s.startswith(pre)`. -/
def pyStartsWith (s pre : String) : Bool := pre.data.isPrefixOf s.data

/-- Python `s.strip()`. -/
def pyStrip (s : String) : String :=
  ⟨((s.data.dropWhile pyIsSpace).reverse.dropWhile pyIsSpace).reverse⟩

/-- Python `any(char.isupper() for char in s)` (ASCII uppercase). -/
def pyHasUpper (s : String) : Bool := s.data.any Char.isUpper

/-- `[start, start+1, ..., start+n-1]` over `Int`; used to state what a
correctly numbered plan's step-index sequence looks like. -/
def intRange (start : Int) : Nat → List Int
  | 0 => []
  | n + 1 => start :: intRange (start + 1) n

/-! ## Data model (`project_models.py`) -/

/-- `ProjectIdea` (only the fields the engine reads). -/
structure ProjectIdea where
  raw_description : String
  refined_summary : String
deriving Repr, DecidableEq

/-- `ProjectGoals`. -/
structure ProjectGoals where
  learning_goals : List String
  technical_goals : List String
  priority_notes : String
deriving Repr, DecidableEq

/-- `FrameworkChoice`: optional frontend/backend/storage names plus
special libraries. -/
structure FrameworkChoice where
  frontend : Option String
  backend : Option String
  storage : Option String
  special_libs : List String
deriving Repr, DecidableEq

/-- `Step`: one implementation step.  The Python class carries the two
mirrored teaching fields `teaching_guidance` and `what_you_learn`. -/
structure Step where
  index : Int
  title : String
  description : String
  teaching_guidance : String
  dependencies : List Int
  what_you_learn : String
deriving Repr, DecidableEq

/-- `Phase`. -/
structure Phase where
  index : Int
  name : String
  description : String
  steps : List Step
deriving Repr, DecidableEq

/-- `ProjectPlan`. -/
structure ProjectPlan where
  idea : ProjectIdea
  goals : ProjectGoals
  framework : FrameworkChoice
  phases : List Phase
  teaching_notes : String
deriving Repr, DecidableEq

/-- `Step.__setattr__` for the name `teaching_guidance`: the write is
mirrored into `what_you_learn`. -/
def Step.setTeachingGuidance (s : Step) (v : String) : Step :=
  { s with teaching_guidance := v, what_you_learn := v }

/-- `Step.__setattr__` for the name `what_you_learn`: the write is mirrored
into `teaching_guidance`. -/
def Step.setWhatYouLearn (s : Step) (v : String) : Step :=
  { s with what_you_learn := v, teaching_guidance := v }

/-- `Step.__post_init__`: copy whichever teaching field is non-empty onto
the other (via `object.__setattr__`, i.e. without the mirroring hook). -/
def Step.postInit (s : Step) : Step :=
  if s.what_you_learn != "" && s.teaching_guidance == "" then
    { s with teaching_guidance := s.what_you_learn }
  else if s.teaching_guidance != "" && s.what_you_learn == "" then
    { s with what_you_learn := s.teaching_guidance }
  else s

/-- Construction of a `Step`: the dataclass `__init__` assigns the fields in
declaration order, each assignment going through `__setattr__` (so the two
teaching fields are mirrored on the way in), then `__post_init__` runs. -/
def mkStep (index : Int) (title description teaching_guidance : String)
    (dependencies : List Int) (what_you_learn : String) : Step :=
  Step.postInit
    (Step.setWhatYouLearn
      (Step.setTeachingGuidance
        { index, title, description, teaching_guidance := "", dependencies,
          what_you_learn := "" } teaching_guidance)
      what_you_learn)

/-! ## Consistency tool (`consistency_tool.py`) -/

/-- `ConsistencyIssue`. -/
structure ConsistencyIssue where
  severity : String
  category : String
  message : String
  location : String
deriving Repr, DecidableEq

/-- `ConsistencyReport`. -/
structure ConsistencyReport where
  issues : List ConsistencyIssue
  passed : Bool
  summary : String
deriving Repr, DecidableEq

/-- `ConsistencyReport.has_errors`. -/
def ConsistencyReport.has_errors (r : ConsistencyReport) : Bool :=
  r.issues.any (fun i => i.severity == "error")

/-- `ConsistencyReport.has_warnings`. -/
def ConsistencyReport.has_warnings (r : ConsistencyReport) : Bool :=
  r.issues.any (fun i => i.severity == "warning")

/-- `ConsistencyReport.get_error_count`. -/
def ConsistencyReport.get_error_count (r : ConsistencyReport) : Nat :=
  (r.issues.filter (fun i => i.severity == "error")).length

/-- `ConsistencyReport.get_warning_count`. -/
def ConsistencyReport.get_warning_count (r : ConsistencyReport) : Nat :=
  (r.issues.filter (fun i => i.severity == "warning")).length

/-- `check_phase_count(phases, expected_count=5)` (the default value 5 is
always the one used; callers pass it explicitly here). -/
def check_phase_count (phases : List Phase) (expected_count : Nat) :
    ConsistencyReport :=
  if phases.length ≠ expected_count then
    let issue : ConsistencyIssue :=
      { severity := "error", category := "phase_count",
        message := "Expected " ++ toString expected_count ++
          " phases but found " ++ toString phases.length,
        location := "ProjectPlan.phases" }
    { issues := [issue], passed := false, summary := "" }
  else
    { issues := [], passed := true,
      summary := "Phase count is correct: " ++ toString expected_count ++ " phases" }

/-- The inner loop of `check_step_numbering` over the steps of one phase:
threads the running expected counter, and accumulates the collected indices
and the mismatch warnings in step order. -/
def snWalkSteps (ph : Phase) (expected : Nat) :
    List Step → Nat × List Int × List ConsistencyIssue
  | [] => (expected, [], [])
  | s :: rest =>
    let warn : List ConsistencyIssue :=
      if s.index ≠ (expected : Int) then
        [{ severity := "warning", category := "step_numbering",
           message := "Expected step index " ++ toString expected ++
             " but found " ++ toString s.index,
           location := "Phase " ++ toString ph.index ++ ", Step \x27" ++
             s.title ++ "\x27" }]
      else []
    let r := snWalkSteps ph (expected + 1) rest
    (r.1, s.index :: r.2.1, warn ++ r.2.2)

/-- The outer loop of `check_step_numbering` over the phases. -/
def snWalkPhases (expected : Nat) :
    List Phase → Nat × List Int × List ConsistencyIssue
  | [] => (expected, [], [])
  | p :: rest =>
    let r1 := snWalkSteps p expected p.steps
    let r2 := snWalkPhases r1.1 rest
    (r2.1, r1.2.1 ++ r2.2.1, r1.2.2 ++ r2.2.2)

/-- `check_step_numbering(phases)`: walk the phases with a running counter
starting at 1, warn on every mismatch, then report an error for every index
value occurring more than once.  (Python iterates the duplicated values as
`set(all_indices)`; the set's iteration order is modelled by first-occurrence
order, which fixes the same multiset of issues.) -/
def check_step_numbering (phases : List Phase) : ConsistencyReport :=
  if phases.isEmpty then
    { issues := [], passed := true, summary := "No phases to check" }
  else
    let walk := snWalkPhases 1 phases
    let all_indices := walk.2.1
    let warnings := walk.2.2
    let duplicates := all_indices.eraseDups.filter (fun idx => all_indices.count idx > 1)
    let dupErrors : List ConsistencyIssue := duplicates.map (fun d =>
      { severity := "error", category := "step_numbering",
        message := "Duplicate step index: " ++ toString d,
        location := "Multiple steps" })
    let issues := warnings ++ dupErrors
    { issues := issues,
      passed := duplicates.isEmpty,
      summary :=
        if issues.isEmpty then
          "Step numbering is correct: " ++ toString all_indices.length ++
            " sequential steps"
        else "" }

/-- All steps of the plan, in phase order. -/
def allSteps (phases : List Phase) : List Step := phases.flatMap (·.steps)

/-- The step indices of the plan, read in phase order (the list
`all_step_indices` built by the consistency checks). -/
def stepIndices (phases : List Phase) : List Int :=
  phases.flatMap (fun p => p.steps.map (·.index))

/-- Location string used by `check_dependencies`. -/
def depLocation (p : Phase) (s : Step) : String :=
  "Phase " ++ toString p.index ++ ", Step " ++ toString s.index ++
    " \x27" ++ s.title ++ "\x27"

/-- The body of the innermost loop of `check_dependencies`: the issue (if
any) raised for the dependency value `d` of step `s` in phase `p`, given
the collected list of valid step indices. -/
def depIssueFor (all_step_indices : List Int) (p : Phase) (s : Step) (d : Int) :
    Option ConsistencyIssue :=
  if !(all_step_indices.contains d) then
    let issue : ConsistencyIssue :=
      { severity := "error", category := "dependencies",
        message := "References non-existent step " ++ toString d,
        location := depLocation p s }
    some issue
  else if d ≥ s.index then
    let issue : ConsistencyIssue :=
      { severity := "error", category := "dependencies",
        message := "References step " ++ toString d ++
          " which is not earlier than current step " ++ toString s.index,
        location := depLocation p s }
    some issue
  else none

/-- `check_dependencies(phases)`: every dependency must reference an
existing step index and be strictly smaller than the referencing step's
index. -/
def check_dependencies (phases : List Phase) : ConsistencyReport :=
  if phases.isEmpty then
    { issues := [], passed := true, summary := "No phases to check" }
  else
    let all_step_indices := stepIndices phases
    let issues : List ConsistencyIssue :=
      phases.flatMap (fun p => p.steps.flatMap (fun s =>
        s.dependencies.filterMap (depIssueFor all_step_indices p s)))
    { issues := issues,
      passed := issues.isEmpty,
      summary := if issues.isEmpty then "All dependencies are valid" else "" }

/-- The argument of `validate_project_plan` is typed `Any` in Python; the
function distinguishes exactly whether the object has a `phases` attribute.
`noPhases` stands for any object without one. -/
inductive PlanArg where
  | obj (p : ProjectPlan)
  | noPhases
deriving Repr, DecidableEq

/-- Total number of steps: `sum(len(phase.steps) for phase in plan.phases)`. -/
def totalSteps (phases : List Phase) : Nat :=
  (phases.map (fun p => p.steps.length)).sum

/-- `validate_project_plan(plan)`: short-circuit with a single `structure`
error when the object has no `phases` attribute, otherwise concatenate the
three sub-checks' issues and summarise. -/
def validate_project_plan : PlanArg → ConsistencyReport
  | .noPhases =>
    let issue : ConsistencyIssue :=
      { severity := "error", category := "structure",
        message := "ProjectPlan has no \x27phases\x27 attribute",
        location := "ProjectPlan" }
    { issues := [issue], passed := false, summary := "Critical structure error" }
  | .obj plan =>
    let pc := check_phase_count plan.phases 5
    let sn := check_step_numbering plan.phases
    let dp := check_dependencies plan.phases
    let issues := pc.issues ++ sn.issues ++ dp.issues
    let combined : ConsistencyReport :=
      { issues := issues, passed := pc.passed && sn.passed && dp.passed,
        summary := "" }
    { combined with
      summary :=
        if issues.isEmpty then
          "All consistency checks passed: " ++ toString plan.phases.length ++
            " phases, " ++ toString (totalSteps plan.phases) ++ " steps"
        else
          "Found " ++ toString combined.get_error_count ++ " errors and " ++
            toString combined.get_warning_count ++ " warnings" }

/-! ## Rubric tool (`rubric_tool.py`) -/

/-- `RubricCriterion` enum. -/
inductive RubricCriterion where
  | CLARITY
  | FEASIBILITY
  | TEACHING_VALUE
  | TECHNICAL_DEPTH
  | COMPLETENESS
  | BALANCE
deriving Repr, DecidableEq

/-- `RubricScore`. -/
structure RubricScore where
  criterion : RubricCriterion
  score : Int
  feedback : String
  pass_threshold : Int
deriving Repr, DecidableEq

/-- `RubricScore.passes`. -/
def RubricScore.passes (s : RubricScore) : Bool := s.score ≥ s.pass_threshold

/-- The fixed vague-word list of `evaluate_concept_clarity`. -/
def vagueWords : List String := ["something", "stuff", "things", "maybe", "somehow"]

/-- `vague_count`: how many of the five vague words occur (as substrings,
case-insensitively) in the text — each listed word counts at most once. -/
def vagueCount (concept_text : String) : Nat :=
  (vagueWords.filter (fun w => pyContains (pyLower concept_text) w)).length

/-- `evaluate_concept_clarity(concept_text)`: ceiling 10, penalties for
brevity/verbosity, vague wording and absence of uppercase characters,
floored at 0; pass threshold 7. -/
def evaluate_concept_clarity (concept_text : String) : RubricScore :=
  let score : Int := 10
  let feedback_points : List String := []
  let word_count := pyWordCount concept_text
  let sp1 :=
    if word_count < 10 then
      (score - 3, feedback_points ++ ["Concept is too brief - needs more detail"])
    else if word_count > 200 then
      (score - 2, feedback_points ++ ["Concept is quite verbose - could be more concise"])
    else (score, feedback_points)
  let vague_count := vagueCount concept_text
  let sp2 :=
    if vague_count > 2 then
      (sp1.1 - 2, sp1.2 ++ ["Contains " ++ toString vague_count ++ " vague terms - be more specific"])
    else sp1
  let sp3 :=
    if !(pyHasUpper concept_text) then
      (sp2.1 - 1, sp2.2 ++ ["Could mention specific technologies or frameworks"])
    else sp2
  let feedback :=
    if sp3.2.isEmpty then "Concept is clear and well-articulated"
    else String.intercalate " | " sp3.2
  { criterion := .CLARITY, score := max 0 sp3.1, feedback := feedback,
    pass_threshold := 7 }

/-- Python list repr for a list of naturals, e.g. `[1, 2]`. -/
def fmtNatList (l : List Nat) : String :=
  "[" ++ String.intercalate ", " (l.map toString) ++ "]"

/-- Rendering of the float `total/n` with one decimal (the `:.1f` format of
the balance feedback; rounding differences of `:.1f` at exact ties are
irrelevant to every claim, only this feedback string uses it). -/
def fmtAvg1 (total n : Nat) : String :=
  if n = 0 then "0.0"
  else
    let r := (20 * total + n) / (2 * n)
    toString (r / 10) ++ "." ++ toString (r % 10)

/-- Exact comparison `variance > 16` for the population variance of
`counts` (the source compares floats; this is the same comparison carried
out in exact rational arithmetic: `sum((c - s/n)^2)/n > 16` iff
`sum((n*c - s)^2) > 16 * n^3`). -/
def varianceGT16 (counts : List Nat) : Bool :=
  let n : Int := counts.length
  let s : Int := (counts.map (fun c => (c : Int))).sum
  decide ((counts.map (fun c => (n * (c : Int) - s) ^ 2)).sum > 16 * n ^ 3)

/-- `enumerate` over a list of step counts. -/
def enumCounts (l : List Nat) : List (Nat × Nat) := (List.range l.length).zip l

/-- `evaluate_phase_balance(phases)`. -/
def evaluate_phase_balance (phases : List Phase) : RubricScore :=
  if phases.isEmpty then
    { criterion := .BALANCE, score := 0, feedback := "No phases to evaluate",
      pass_threshold := 6 }
  else
    let score : Int := 10
    let feedback_points : List String := []
    let sp1 :=
      if phases.length ≠ 5 then
        (score - 3, feedback_points ++ ["Expected 5 phases but found " ++ toString phases.length])
      else (score, feedback_points)
    let step_counts := phases.map (fun p => p.steps.length)
    let total_steps := step_counts.sum
    let empty_phases := (enumCounts step_counts).filterMap
      (fun pr => if pr.2 < 3 then some (pr.1 + 1) else none)
    let sp2 :=
      if !empty_phases.isEmpty then
        (sp1.1 - 2, sp1.2 ++ ["Phases " ++ fmtNatList empty_phases ++ " have too few steps (< 3)"])
      else sp1
    let overloaded_phases := (enumCounts step_counts).filterMap
      (fun pr => if pr.2 > 15 then some (pr.1 + 1) else none)
    let sp3 :=
      if !overloaded_phases.isEmpty then
        (sp2.1 - 2, sp2.2 ++ ["Phases " ++ fmtNatList overloaded_phases ++ " are overloaded (> 15 steps)"])
      else sp2
    let sp4 :=
      if !step_counts.isEmpty then
        if varianceGT16 step_counts then
          (sp3.1 - 1, sp3.2 ++ ["Uneven step distribution (counts: " ++ fmtNatList step_counts ++ ")"])
        else sp3
      else sp3
    let sp5 :=
      if total_steps < 40 then
        (sp4.1 - 1, sp4.2 ++ ["Only " ++ toString total_steps ++ " total steps - plan may be underscoped"])
      else if total_steps > 60 then
        (sp4.1 - 1, sp4.2 ++ [toString total_steps ++ " total steps - plan may be overscoped"])
      else sp4
    let feedback :=
      if sp5.2.isEmpty then
        "Well-balanced: " ++ toString phases.length ++ " phases with " ++
          toString total_steps ++ " steps (avg " ++ fmtAvg1 total_steps phases.length ++
          " per phase)"
      else String.intercalate " | " sp5.2
    { criterion := .BALANCE, score := max 0 sp5.1, feedback := feedback,
      pass_threshold := 6 }

/-- Exact comparison `coverage < p` where `coverage` is the float
`g / t * 100` (or `0` when `t = 0`). -/
def coverageLt (g t p : Nat) : Bool :=
  if t = 0 then decide (0 < p) else decide (100 * g < p * t)

/-- Rendering of the coverage percentage with the `:.0f` format (nearest
integer; only feedback strings use it). -/
def fmtPct (g t : Nat) : String :=
  if t = 0 then "0" else toString ((200 * g + t) / (2 * t))

/-- Phase-name keyword lists of `evaluate_teaching_clarity`. -/
def advancedKeywords : List String :=
  ["advanced", "production", "deployment", "optimization", "polish", "testing"]

/-- Keyword list for foundational early-phase names. -/
def basicKeywords : List String :=
  ["setup", "foundation", "basics", "introduction", "getting started"]

/-- Number of steps whose `teaching_guidance` is present, non-empty and
longer than 20 characters once stripped. -/
def stepsWithGuidance (phases : List Phase) : Nat :=
  ((allSteps phases).filter
    (fun s => s.teaching_guidance != "" && (pyStrip s.teaching_guidance).length > 20)).length

/-- The `NameError` raised by `evaluate_teaching_clarity` when it reads the
undefined name `learning_coverage` (the function defines
`guidance_coverage` instead). -/
def teachingNameError : String :=
  "NameError: name \x27learning_coverage\x27 is not defined"

/-- `evaluate_teaching_clarity(plan, skill_level)`.  The two places where
the source reads the undefined variable `learning_coverage` — the
`skill_level == "beginner"` adjustment and the no-penalty feedback f-string
— are modelled as `Except.error`, since the Python call raises `NameError`
there. -/
def evaluate_teaching_clarity (plan : ProjectPlan) (skill_level : String) :
    Except String RubricScore :=
  let score : Int := 10
  let feedback_points : List String := []
  let total_steps := totalSteps plan.phases
  let steps_with_guidance := stepsWithGuidance plan.phases
  let sp1 :=
    if coverageLt steps_with_guidance total_steps 50 then
      (score - 3, feedback_points ++ ["Only " ++ fmtPct steps_with_guidance total_steps ++
        "% of steps have educational guidance - aim for 80%+"])
    else if coverageLt steps_with_guidance total_steps 80 then
      (score - 1, feedback_points ++ [fmtPct steps_with_guidance total_steps ++
        "% of steps have educational guidance - good but could be higher"])
    else (score, feedback_points)
  let teaching_notes_length := plan.teaching_notes.length
  let sp2 :=
    if teaching_notes_length < 200 then
      (sp1.1 - 2, sp1.2 ++ ["Global teaching notes are too brief - should provide pedagogical arc overview"])
    else if teaching_notes_length < 500 then
      (sp1.1 - 1, sp1.2 ++ ["Global teaching notes could be more detailed"])
    else sp1
  let early_phases := if plan.phases.length ≥ 2 then plan.phases.take 2 else []
  let late_phases :=
    if plan.phases.length ≥ 2 then plan.phases.drop (plan.phases.length - 2) else []
  let early_has_basics := early_phases.any
    (fun ph => basicKeywords.any (fun k => pyContains (pyLower ph.name) k))
  let late_has_advanced := late_phases.any
    (fun ph => advancedKeywords.any (fun k => pyContains (pyLower ph.name) k))
  let sp3 :=
    if !early_has_basics then
      (sp2.1 - 1, sp2.2 ++ ["Early phases should emphasize foundations and basics"])
    else sp2
  let sp4 :=
    if !late_has_advanced && skill_level ≠ "beginner" then
      (sp3.1 - 1, sp3.2 ++ ["Later phases should introduce more advanced concepts"])
    else sp3
  if skill_level = "beginner" then
    -- `if skill_level == "beginner" and learning_coverage < 90:` reads the
    -- undefined name `learning_coverage` and raises.
    Except.error teachingNameError
  else if sp4.2.isEmpty then
    -- the no-penalty feedback f-string also reads `learning_coverage`.
    Except.error teachingNameError
  else
    Except.ok
      { criterion := .TEACHING_VALUE, score := max 0 sp4.1,
        feedback := String.intercalate " | " sp4.2, pass_threshold := 7 }

/-- The six topic keyword groups of `evaluate_technical_depth`. -/
def testingKeywordsTD : List String := ["test", "testing", "pytest", "unittest", "tdd"]

/-- Deployment keyword group. -/
def deploymentKeywordsTD : List String :=
  ["deploy", "deployment", "production", "docker", "ci/cd"]

/-- Architecture keyword group. -/
def architectureKeywordsTD : List String :=
  ["architecture", "design pattern", "solid", "refactor", "modular"]

/-- Error-handling keyword group. -/
def errorHandlingKeywordsTD : List String :=
  ["error", "exception", "logging", "validation", "edge case"]

/-- Database keyword group. -/
def databaseKeywordsTD : List String :=
  ["database", "migration", "query", "index", "transaction"]

/-- Security keyword group. -/
def securityKeywordsTD : List String :=
  ["security", "authentication", "authorization", "encryption", "sanitize"]

/-- `all_text`: all lower-cased step titles followed by all lower-cased step
descriptions, joined with single spaces. -/
def techAllText (plan : ProjectPlan) : String :=
  let titles := (allSteps plan.phases).map (fun s => pyLower s.title)
  let descs := (allSteps plan.phases).map (fun s => pyLower s.description)
  String.intercalate " " (titles ++ descs)

/-- `depth_score`: how many of the six keyword groups occur in `all_text`. -/
def depthScore (plan : ProjectPlan) : Nat :=
  let t := techAllText plan
  ([testingKeywordsTD, deploymentKeywordsTD, architectureKeywordsTD,
    errorHandlingKeywordsTD, databaseKeywordsTD, securityKeywordsTD].filter
    (fun kws => kws.any (fun k => pyContains t k))).length

/-- The named frameworks of the stack: `[plan.framework.frontend, backend,
storage]` with falsy entries (None or empty string) removed. -/
def frameworksList (fw : FrameworkChoice) : List String :=
  (([fw.frontend, fw.backend, fw.storage].filterMap id).filter (fun f => f ≠ ""))

/-- Complex-framework name list (beginner penalty). -/
def complexFrameworks : List String :=
  ["React", "Vue", "Django", "PostgreSQL", "Kubernetes"]

/-- Trivial-framework marker list (advanced penalty). -/
def simpleFrameworkMarkers : List String := ["streamlit", "json", "csv", "cli"]

/-- `evaluate_technical_depth(plan, skill_level)`. -/
def evaluate_technical_depth (plan : ProjectPlan) (skill_level : String) :
    RubricScore :=
  let score : Int := 10
  let feedback_points : List String := []
  let depth_score := depthScore plan
  let sp1 :=
    if skill_level = "beginner" then
      if depth_score < 2 then
        (score - 2, feedback_points ++ ["Even beginner projects should cover testing and error handling"])
      else (score, feedback_points)
    else if skill_level = "intermediate" then
      if depth_score < 3 then
        (score - 2, feedback_points ++ ["Intermediate projects should cover testing, error handling, and architecture"])
      else (score, feedback_points)
    else if skill_level = "advanced" then
      if depth_score < 4 then
        (score - 3, feedback_points ++ ["Advanced projects should cover testing, deployment, architecture, and security"])
      else (score, feedback_points)
    else (score, feedback_points)
  -- `hasattr(plan, 'framework')` always holds for a ProjectPlan record.
  let frameworks := frameworksList plan.framework
  let sp2 :=
    if skill_level = "beginner" then
      let uses_complex := frameworks.any
        (fun fw => complexFrameworks.any (fun c => pyContains fw c))
      if uses_complex then
        (sp1.1 - 2, sp1.2 ++ ["Frameworks may be too complex for beginner level - consider simpler alternatives"])
      else sp1
    else sp1
  let sp3 :=
    if skill_level = "advanced" then
      let simple_only := frameworks.all
        (fun fw => simpleFrameworkMarkers.any (fun m => pyContains (pyLower fw) m))
      if simple_only then
        (sp2.1 - 2, sp2.2 ++ ["Advanced projects should use more production-grade frameworks"])
      else sp2
    else sp2
  let sp4 :=
    if depth_score ≥ 5 then
      (sp3.1, sp3.2 ++ ["Excellent technical breadth covering " ++ toString depth_score ++ "/6 advanced topics"])
    else if depth_score ≥ 3 then
      (sp3.1, sp3.2 ++ ["Good technical coverage with " ++ toString depth_score ++ "/6 advanced topics"])
    else sp3
  let feedback :=
    if sp4.2.isEmpty then "Strong technical depth appropriate for skill level"
    else String.intercalate " | " sp4.2
  { criterion := .TECHNICAL_DEPTH, score := max 0 sp4.1, feedback := feedback,
    pass_threshold := 6 }

/-- `type_expectations` table: `(min_steps, max_steps, ideal_phases,
max_weeks)`; unknown project types fall back to `medium`. -/
def typeExpectations (project_type : String) : Nat × Nat × Nat × Nat :=
  if project_type = "toy" then (15, 30, 3, 1)
  else if project_type = "medium" then (35, 55, 5, 2)
  else if project_type = "ambitious" then (50, 70, 5, 4)
  else (35, 55, 5, 2)

/-- Parsing of `weeks_available` from the time-constraint text. -/
def parseWeeks (time_constraint : String) : Nat :=
  if pyContains (pyLower time_constraint) "week" then
    if pyStartsWith time_constraint "1 " then 1
    else if pyContains time_constraint "2" then 2
    else if pyContains time_constraint "3" then 3
    else if pyContains time_constraint "4" then 4
    else 2
  else 2

/-- Python `str.title()` restricted to the single-word project-type strings
it is applied to (first letter upper-cased, rest lower-cased). -/
def pyTitle (s : String) : String :=
  match s.data with
  | [] => ""
  | c :: cs => ⟨c.toUpper :: cs.map Char.toLower⟩

/-- Deployment keywords of the toy-project check. -/
def toyDeployKeywords : List String := ["deploy", "production", "docker", "ci/cd"]

/-- Advanced-feature keywords of the ambitious-project check. -/
def ambitiousFeatureKeywords : List String :=
  ["advanced", "optimization", "scale", "production", "testing"]

/-- `evaluate_feasibility_for_project_type(plan, project_type,
time_constraint)`. -/
def evaluate_feasibility_for_project_type (plan : ProjectPlan)
    (project_type : String) (time_constraint : String) : RubricScore :=
  let score : Int := 10
  let feedback_points : List String := []
  let total_steps := totalSteps plan.phases
  let phase_count := plan.phases.length
  let expected := typeExpectations project_type
  let min_steps := expected.1
  let max_steps := expected.2.1
  let ideal_phases := expected.2.2.1
  let max_weeks := expected.2.2.2
  let sp1 :=
    if total_steps < min_steps then
      (score - 3, feedback_points ++ [pyTitle project_type ++ " projects should have " ++
        toString min_steps ++ "-" ++ toString max_steps ++ " steps (found " ++
        toString total_steps ++ ")"])
    else if total_steps > max_steps then
      (score - 2, feedback_points ++ [toString total_steps ++
        " steps may be too many for " ++ project_type ++ " project (recommend " ++
        toString max_steps ++ " max)"])
    else (score, feedback_points)
  let sp2 :=
    if ((phase_count : Int) - (ideal_phases : Int)).natAbs > 1 then
      (sp1.1 - 1, sp1.2 ++ [pyTitle project_type ++ " projects typically have ~" ++
        toString ideal_phases ++ " phases (found " ++ toString phase_count ++ ")"])
    else sp1
  let weeks_available := parseWeeks time_constraint
  let sp3 :=
    if weeks_available < max_weeks then
      (sp2.1 - 2, sp2.2 ++ [pyTitle project_type ++ " projects typically need ~" ++
        toString max_weeks ++ " weeks (only " ++ toString weeks_available ++ " available)"])
    else sp2
  let sp4 :=
    if project_type = "toy" then
      let deployment_steps := (allSteps plan.phases).filter
        (fun s => toyDeployKeywords.any (fun k => pyContains (pyLower s.title) k))
      if deployment_steps.length > 2 then
        (sp3.1 - 1, sp3.2 ++ ["Toy projects should focus on core learning, not deployment complexity"])
      else sp3
    else sp3
  let sp5 :=
    if project_type = "ambitious" then
      let advanced_features := ((allSteps plan.phases).filter
        (fun s => ambitiousFeatureKeywords.any (fun k => pyContains (pyLower s.title) k))).length
      if advanced_features < 5 then
        (sp4.1 - 2, sp4.2 ++ ["Ambitious projects should include more advanced/production features"])
      else sp4
    else sp4
  let feedback :=
    if sp5.2.isEmpty then
      "Scope well-matched to " ++ project_type ++ " project with " ++
        toString total_steps ++ " steps"
    else String.intercalate " | " sp5.2
  { criterion := .FEASIBILITY, score := max 0 sp5.1, feedback := feedback,
    pass_threshold := 6 }

/-! ## Evaluator agent (`evaluator_agent.py`) -/

/-- The five-entry `scores` dict of `evaluate_plan_quality`, in insertion
order: clarity, balance, teaching value, technical depth, feasibility. -/
structure EvalScores where
  clarity : RubricScore
  balance : RubricScore
  teaching_value : RubricScore
  technical_depth : RubricScore
  feasibility : RubricScore
deriving Repr, DecidableEq

/-- `scores.values()` in dict insertion order. -/
def EvalScores.values (s : EvalScores) : List RubricScore :=
  [s.clarity, s.balance, s.teaching_value, s.technical_depth, s.feasibility]

/-- `EvaluationResult` (evaluator_agent.py). -/
structure EvaluationResult where
  approved : Bool
  scores : EvalScores
  consistency_report : ConsistencyReport
  feedback : String
  critical_issues : List String
  suggestions : List String
  architecture_notes : List String
  resilience_risks : List String
  performance_alerts : List String
  test_recommendations : List String
  naming_feedback : Option String
deriving Repr, DecidableEq

/-- `x or 'n/a'` for the optional framework names in the plan snapshot. -/
def orNA (o : Option String) : String :=
  match o with
  | none => "n/a"
  | some s => if s = "" then "n/a" else s

/-- Formatting of one consistency issue inside critical/suggestion lists:
`f"{category}: {message} ({location})"`. -/
def issueLine (i : ConsistencyIssue) : String :=
  i.category ++ ": " ++ i.message ++ " (" ++ i.location ++ ")"

/-- The fixed ambiguous-language phrase list of the autonomous-executability
check. -/
def ambiguousPhrases : List String :=
  ["if needed", "consider", "optionally", "you may", "if desired",
   "feel free to", "think about", "research", "look into"]

/-- The `plan_snapshot` paragraph of the feedback text. -/
def planSnapshot (plan : ProjectPlan) : String :=
  "Architecture snapshot: " ++ toString plan.phases.length ++ " phases, " ++
    toString (totalSteps plan.phases) ++ " steps.\n" ++
    "Stack focus → Frontend: " ++ orNA plan.framework.frontend ++
    ", Backend: " ++ orNA plan.framework.backend ++ ", Storage: " ++
    orNA plan.framework.storage ++ "."

/-- The feedback text of an approved evaluation. -/
def approvedFeedback (plan : ProjectPlan) (scores : EvalScores)
    (suggestions : List String) : String :=
  "Plan approved! ✓\n\n" ++ planSnapshot plan ++
    "\n\nParagraph 1 — Quality Summary:\nClarity " ++
    toString scores.clarity.score ++ "/10, Feasibility " ++
    toString scores.feasibility.score ++ "/10,\nTeaching Value " ++
    toString scores.teaching_value.score ++ "/10,\nTechnical Depth " ++
    toString scores.technical_depth.score ++ "/10, Balance " ++
    toString scores.balance.score ++
    "/10.\n\nParagraph 2 — Structural Notes:\nThe pacing across phases feels consistent and should keep an AI engaged for 1+ hours. Review the optional notes below\nto tighten naming/style and make space for testing before shipping.\n" ++
    (if !suggestions.isEmpty then
      "\nOptional improvements:\n" ++
        String.intercalate "\n" (suggestions.map (fun s => "- " ++ s))
    else "")

/-- The feedback text of a rejected evaluation. -/
def rejectedFeedback (plan : ProjectPlan) (scores : EvalScores)
    (critical_issues : List String) : String :=
  "Plan needs revision. ✗\n\nCritical issues to fix:\n" ++
    String.intercalate "\n" (critical_issues.map (fun s => "- " ++ s)) ++
    "\n\nParagraph 1 — Quality Breakdown:\n- Clarity: " ++
    toString scores.clarity.score ++ "/10\n- Feasibility: " ++
    toString scores.feasibility.score ++ "/10\n- Teaching Value: " ++
    toString scores.teaching_value.score ++ "/10\n- Technical Depth: " ++
    toString scores.technical_depth.score ++ "/10\n- Balance: " ++
    toString scores.balance.score ++
    "/10\n\nParagraph 2 — Structural Context:\n" ++ planSnapshot plan ++ "\n"

/-- The critical-issue strings contributed by the consistency report: the
summary header followed by one line per error-severity issue. -/
def consistencyCriticals (consistency_report : ConsistencyReport) : List String :=
  if consistency_report.has_errors then
    ("Structural errors: " ++ consistency_report.summary) ::
      ((consistency_report.issues.filter (fun i => i.severity == "error")).map issueLine)
  else []

/-- The suggestion strings contributed by the consistency report. -/
def consistencySuggestions (consistency_report : ConsistencyReport) : List String :=
  if consistency_report.has_warnings then
    (consistency_report.issues.filter (fun i => i.severity == "warning")).map issueLine
  else []

/-- The two architecture notes (wide phase-size spread; duplicate phase
names). -/
def architectureNotesOf (plan : ProjectPlan) : List String :=
  let phase_lengths := (plan.phases.filter (fun p => !p.steps.isEmpty)).map
    (fun p => p.steps.length)
  let architecture_notes0 : List String :=
    if !phase_lengths.isEmpty then
      let max_len := phase_lengths.foldl Nat.max 0
      let min_len := phase_lengths.foldl Nat.min (phase_lengths.headD 0)
      if max_len - min_len > 6 then
        ["Phase sizes vary widely; consider redistributing work for steadier pacing."]
      else []
    else []
  let phase_names := plan.phases.map (·.name)
  architecture_notes0 ++
    (if phase_names.eraseDups.length ≠ phase_names.length then
      ["Duplicate phase names detected; rename phases for clarity."]
     else [])

/-- The too-ambitious-for-the-timeline check: contributes a critical issue
and a performance alert when the step count overshoots the parsed
timeframe. -/
def overshootOf (total_steps : Nat) (time_constraint : String) :
    List String × List String :=
  if pyStartsWith time_constraint "1 week" || time_constraint = "1 week" then
    if total_steps > 40 then
      (["Plan is too ambitious for 1 week: " ++ toString total_steps ++
         " steps. Reduce scope or extend timeline to 1-2 weeks."],
       ["Scope overshoot for 1 week timeline."])
    else ([], [])
  else if pyContains time_constraint "1-2 week" || pyContains time_constraint "2 week" then
    if total_steps > 60 then
      (["Plan is too ambitious for 2 weeks: " ++ toString total_steps ++
         " steps. Reduce scope or set project_type to \x27ambitious\x27 with 3-4 weeks."],
       ["Scope overshoot for 2 week timeline."])
    else ([], [])
  else ([], [])

/-- The naming/style critique over the phase names. -/
def namingFeedbackOf (plan : ProjectPlan) : Option String :=
  let phase_names := plan.phases.map (·.name)
  if !phase_names.isEmpty then
    if phase_names.any (fun t => t ≠ "" && (⟨t.data.map Char.toUpper⟩ : String) = t) then
      some "Phase names use ALL CAPS; prefer sentence or title case for readability."
    else if phase_names.any (fun t => pyWordCount t < 2) then
      some "Phase names look too short; add context so the teacher/LLM knows the milestone."
    else none
  else none

/-- The lower-cased title+description+guidance texts of all steps. -/
def stepTextsOf (plan : ProjectPlan) : List String :=
  (allSteps plan.phases).map
    (fun s => pyLower (s.title ++ " " ++ s.description ++ " " ++ s.teaching_guidance))

/-- The testing recommendation (no step text mentions "test"). -/
def testRecommendationsOf (plan : ProjectPlan) : List String :=
  let step_texts := stepTextsOf plan
  if !step_texts.isEmpty && !(step_texts.any (fun t => pyContains t "test")) then
    ["Add a dedicated testing/validation step so the plan closes with verification."]
  else []

/-- The resilience risk (no step text mentions error handling). -/
def resilienceRisksOf (plan : ProjectPlan) : List String :=
  let step_texts := stepTextsOf plan
  if !step_texts.isEmpty &&
      !(step_texts.any (fun t =>
        ["error", "exception", "logging", "retry"].any (fun k => pyContains t k))) then
    ["No step mentions error handling or logging; add explicit resilience work."]
  else []

/-- The per-step ambiguous-language findings. -/
def ambiguousStepsOf (plan : ProjectPlan) : List String :=
  (allSteps plan.phases).filterMap (fun s =>
    let step_text := pyLower (s.title ++ " " ++ s.description)
    let found_phrases := ambiguousPhrases.filter (fun p => pyContains step_text p)
    if !found_phrases.isEmpty then
      some ("Step " ++ toString s.index ++ " contains ambiguous language: " ++
        String.intercalate ", " found_phrases)
    else none)

/-- One critical issue per step whose guidance is missing or shorter than
30 characters. -/
def guidanceCriticalsOf (plan : ProjectPlan) : List String :=
  (allSteps plan.phases).filterMap (fun s =>
    if s.teaching_guidance = "" || (pyStrip s.teaching_guidance).length < 30 then
      some ("Step " ++ toString s.index ++
        " lacks comprehensive implementation guidance (teaching_guidance too brief or missing)")
    else none)

/-- Routing of the ambiguous-language findings: more than five matching
steps become one aggregated critical issue, otherwise each becomes a
suggestion. -/
def ambiguousOutOf (ambiguous_steps : List String) : List String × List String :=
  if !ambiguous_steps.isEmpty then
    if ambiguous_steps.length > 5 then
      (["Multiple steps (" ++ toString ambiguous_steps.length ++
         ") contain ambiguous language that requires clarification. For autonomous execution, steps must be decisive and specific."],
       [])
    else
      ([], ambiguous_steps.map (fun a => "Autonomous execution concern: " ++ a))
  else ([], [])

/-- `evaluate_plan_quality(plan, skill_level, project_type,
time_constraint)`.  The call to `evaluate_teaching_clarity` is the only
fallible step; its `NameError` propagates out of `evaluate_plan_quality`,
hence the `Except` result. -/
def evaluate_plan_quality (plan : ProjectPlan) (skill_level : String)
    (project_type : String) (time_constraint : String) :
    Except String EvaluationResult :=
  let consistency_report := validate_project_plan (.obj plan)
  let critical0 := consistencyCriticals consistency_report
  let suggestions0 := consistencySuggestions consistency_report
  let clarity_score := evaluate_concept_clarity plan.idea.refined_summary
  let critical1 := critical0 ++
    (if !clarity_score.passes then ["Clarity issues: " ++ clarity_score.feedback] else [])
  let balance_score := evaluate_phase_balance plan.phases
  let critical2 := critical1 ++
    (if !balance_score.passes then ["Balance issues: " ++ balance_score.feedback] else [])
  let suggestions1 := suggestions0 ++
    (if !balance_score.passes then []
     else if balance_score.score < 8 then
       ["Balance could be improved: " ++ balance_score.feedback]
     else [])
  match evaluate_teaching_clarity plan skill_level with
  | .error e => .error e
  | .ok teaching_score =>
    let critical3 := critical2 ++
      (if !teaching_score.passes then ["Teaching clarity issues: " ++ teaching_score.feedback] else [])
    let suggestions2 := suggestions1 ++
      (if !teaching_score.passes then []
       else if teaching_score.score < 8 then
         ["Teaching clarity: " ++ teaching_score.feedback]
       else [])
    let technical_depth_score := evaluate_technical_depth plan skill_level
    let critical4 := critical3 ++
      (if !technical_depth_score.passes then
        ["Technical depth issues: " ++ technical_depth_score.feedback]
       else [])
    let suggestions3 := suggestions2 ++
      (if !technical_depth_score.passes then []
       else if technical_depth_score.score < 7 then
         ["Technical depth: " ++ technical_depth_score.feedback]
       else [])
    let feasibility_score :=
      evaluate_feasibility_for_project_type plan project_type time_constraint
    let critical5 := critical4 ++
      (if !feasibility_score.passes then
        ["SCOPE MISMATCH: " ++ feasibility_score.feedback]
       else [])
    let suggestions4 := suggestions3 ++
      (if !feasibility_score.passes then []
       else if feasibility_score.score < 7 then
         ["Feasibility concern: " ++ feasibility_score.feedback]
       else [])
    let total_steps := totalSteps plan.phases
    let critical6 := critical5 ++
      (if total_steps < 20 then
        ["Plan is too trivial: Only " ++ toString total_steps ++
          " steps. Even \x27toy\x27 projects should have 20-30 steps to provide meaningful learning."]
       else [])
    let performance_alerts0 : List String :=
      if total_steps < 20 then
        ["Increase the step count to cover a full practice loop."]
      else []
    let overshoot := overshootOf total_steps time_constraint
    let critical7 := critical6 ++ overshoot.1
    let performance_alerts1 := performance_alerts0 ++ overshoot.2
    let suggestions5 := suggestions4 ++
      (if plan.teaching_notes = "" || (pyStrip plan.teaching_notes).length < 50 then
        ["Global teaching notes are missing or too brief"]
       else [])
    let ambiguous_steps := ambiguousStepsOf plan
    let critical8 := critical7 ++ guidanceCriticalsOf plan
    let ambiguousOut := ambiguousOutOf ambiguous_steps
    let critical_issues := critical8 ++ ambiguousOut.1
    let suggestions := suggestions5 ++ ambiguousOut.2
    let scores : EvalScores :=
      { clarity := clarity_score, balance := balance_score,
        teaching_value := teaching_score, technical_depth := technical_depth_score,
        feasibility := feasibility_score }
    let approved := critical_issues.isEmpty && scores.values.all RubricScore.passes
    let feedback :=
      if approved then approvedFeedback plan scores suggestions
      else rejectedFeedback plan scores critical_issues
    Except.ok
      { approved := approved, scores := scores,
        consistency_report := consistency_report, feedback := feedback,
        critical_issues := critical_issues, suggestions := suggestions,
        architecture_notes := architectureNotesOf plan,
        resilience_risks := resilienceRisksOf plan,
        performance_alerts := performance_alerts1,
        test_recommendations := testRecommendationsOf plan,
        naming_feedback := namingFeedbackOf plan }

/-- The evaluator read-only framing: the source performs no write to any
attribute of its `plan` argument, so the state-threaded form of the call
returns the plan exactly as received alongside the result. -/
def evaluate_plan_quality_st (plan : ProjectPlan) (skill_level : String)
    (project_type : String) (time_constraint : String) :
    ProjectPlan × Except String EvaluationResult :=
  (plan, evaluate_plan_quality plan skill_level project_type time_constraint)

/-- Same framing for `validate_project_plan`: no write to the plan object
occurs anywhere in the consistency checks. -/
def validate_project_plan_st (plan : PlanArg) : PlanArg × ConsistencyReport :=
  (plan, validate_project_plan plan)

/-! ## Concrete plans used as witnesses and counterexamples -/

/-- A substantial per-step guidance text (longer than 30 characters). -/
def goodGuidance : String :=
  "Explain the approach in detail and include working code samples for this step."

/-- A guidance text of 27 characters: long enough (> 20) to count as
guidance coverage for the teaching rubric, but shorter than the 30
characters the orchestrator's per-step check requires. -/
def shortGuidance : String := "Focus on the core ideas now"

/-- A step with the given global index and guidance text. -/
def mkGoodStep (i : Int) (g : String) : Step :=
  { index := i, title := "Implement the module",
    description := "Build then test error handling architecture",
    teaching_guidance := g, dependencies := [], what_you_learn := g }

/-- Five well-formed phase names (first two foundational, last two
advanced, all multi-word, all distinct, none all-caps). -/
def goodPhaseNames : List String :=
  ["Setup and foundations", "Core modules build", "Feature assembly work",
   "Polish and optimization", "Testing and deployment"]

/-- Global teaching notes of 450 characters (between 200 and 500). -/
def goodNotes : String := String.join (List.replicate 25 "teaching arc note ")

/-- A clear 17-word idea summary with uppercase names and no vague words. -/
def goodIdea : ProjectIdea :=
  { raw_description := "journal app",
    refined_summary := "Build a Flask journaling application with SQLite storage plus automated tests and simple deployment notes for learners." }

/-- A fully named stack. -/
def goodFramework : FrameworkChoice :=
  { frontend := some "Streamlit", backend := some "FastAPI",
    storage := some "SQLite", special_libs := [] }

/-- Empty goals record (the evaluator never reads the goals). -/
def emptyGoals : ProjectGoals :=
  { learning_goals := [], technical_goals := [], priority_notes := "" }

/-- Five phases of four steps each, steps globally numbered 1..20, no
dependencies; the step of global index `shortIdx` gets the short guidance,
all others the good one (passing 0 gives a fully good plan). -/
def mkPhases (shortIdx : Int) : List Phase :=
  (List.range 5).map (fun (k : Nat) =>
    { index := Int.ofNat k + 1, name := goodPhaseNames.getD k "",
      description := "Phase work",
      steps := (List.range 4).map (fun (j : Nat) =>
        let idx : Int := Int.ofNat (4 * k + j) + 1
        mkGoodStep idx (if idx = shortIdx then shortGuidance else goodGuidance)) })

/-- A plan every check approves of. -/
def goodPlan : ProjectPlan :=
  { idea := goodIdea, goals := emptyGoals, framework := goodFramework,
    phases := mkPhases 0, teaching_notes := goodNotes }

/-- The same plan with one step's guidance shortened below 30 characters:
structure is flawless and every rubric score still passes, but the per-step
guidance check raises a critical issue. -/
def cePlan : ProjectPlan :=
  { idea := goodIdea, goals := emptyGoals, framework := goodFramework,
    phases := mkPhases 20, teaching_notes := goodNotes }

/-- A plan on which `evaluate_teaching_clarity` fires no penalty at all
(full coverage, long notes, foundational and advanced phase names). -/
def perfectTeachingPlan : ProjectPlan :=
  { idea := goodIdea, goals := emptyGoals, framework := goodFramework,
    phases := mkPhases 0,
    teaching_notes := String.join (List.replicate 30 "teaching arc note ") }

/-- The empty plan (no phases, no stack). -/
def emptyPlan : ProjectPlan :=
  { idea := { raw_description := "", refined_summary := "" },
    goals := emptyGoals,
    framework := { frontend := none, backend := none, storage := none,
                   special_libs := [] },
    phases := [], teaching_notes := "" }

/-- Placeholder score for `exceptOkD`. -/
def dummyScore : RubricScore :=
  { criterion := .CLARITY, score := 0, feedback := "", pass_threshold := 7 }

/-- Placeholder result for `exceptOkD`. -/
def dummyResult : EvaluationResult :=
  { approved := false,
    scores := { clarity := dummyScore, balance := dummyScore,
                teaching_value := dummyScore, technical_depth := dummyScore,
                feasibility := dummyScore },
    consistency_report := { issues := [], passed := true, summary := "" },
    feedback := "", critical_issues := [], suggestions := [],
    architecture_notes := [], resilience_risks := [], performance_alerts := [],
    test_recommendations := [], naming_feedback := none }

/-- Extract the successful result of an evaluation. -/
def exceptOkD (e : Except String EvaluationResult) : EvaluationResult :=
  match e with
  | .ok r => r
  | .error _ => dummyResult

/-- The evaluation of the good plan. -/
def goodResult : EvaluationResult :=
  exceptOkD (evaluate_plan_quality goodPlan "intermediate" "medium" "2 weeks")

/-- The evaluation of the short-guidance plan. -/
def ceResult : EvaluationResult :=
  exceptOkD (evaluate_plan_quality cePlan "intermediate" "medium" "2 weeks")

/-- All `(step index, dependency value)` pairs of the plan, in source
order. -/
def depPairs (phases : List Phase) : List (Int × Int) :=
  phases.flatMap (fun p => p.steps.flatMap (fun s =>
    s.dependencies.map (fun d => (s.index, d))))

/-- The per-dependency error condition of the claim: the value is not a
step index of the plan, or it is not strictly smaller than the index of
the step declaring it. -/
def depViolation (valid : List Int) (pr : Int × Int) : Bool :=
  !(valid.contains pr.2) || decide (pr.2 ≥ pr.1)

/-- A 45-word text of uppercase-initial words with no vague words. -/
def fortyFiveWordText : String :=
  String.intercalate " " (List.replicate 45 "Word")

/-! ## Claim theorems -/

/-- C9: for every Step, the two fields `teaching_guidance` and
`what_you_learn` are always equal: after construction with any combination
of the two arguments (including both provided with different values), and
after any subsequent assignment to either field, the invariant
`teaching_guidance == what_you_learn` holds. -/
theorem c9_step_teaching_fields_always_equal :
    (∀ (index : Int) (title description teaching_guidance : String)
        (dependencies : List Int) (what_you_learn : String),
      (mkStep index title description teaching_guidance dependencies
          what_you_learn).teaching_guidance =
        (mkStep index title description teaching_guidance dependencies
          what_you_learn).what_you_learn) ∧
    (∀ (s : Step) (v : String),
      (s.setTeachingGuidance v).teaching_guidance =
        (s.setTeachingGuidance v).what_you_learn) ∧
    (∀ (s : Step) (v : String),
      (s.setWhatYouLearn v).teaching_guidance =
        (s.setWhatYouLearn v).what_you_learn) := by
  refine ⟨fun i t d tg dep wyl => ?_, fun s v => rfl, fun s v => rfl⟩
  unfold mkStep Step.postInit Step.setWhatYouLearn Step.setTeachingGuidance
  dsimp only
  split <;> rfl

/-- C8: neither `validate_project_plan` nor `evaluate_plan_quality` mutates
its Plan argument: the state-threaded forms of both calls return the plan
exactly as it was received (the source only reads the plan's fields; no
attribute write occurs). -/
theorem c8_plan_never_mutated :
    (∀ (plan : ProjectPlan) (skill_level project_type time_constraint : String),
      (evaluate_plan_quality_st plan skill_level project_type time_constraint).1 = plan) ∧
    (∀ arg : PlanArg, (validate_project_plan_st arg).1 = arg) :=
  ⟨fun _ _ _ _ => rfl, fun _ => rfl⟩

/-- C6: `validate_project_plan` short-circuits in exactly one case — a plan
record without a `phases` collection yields a report with a single
error-severity `structure` issue and nothing else runs; for every plan that
has phases, the issue list is exactly the concatenation of the issues of
the three sub-checks (phase count, step numbering, dependencies), so one
failing check never hides another's findings. -/
theorem c6_validate_runs_all_checks :
    (validate_project_plan .noPhases =
      { issues := [{ severity := "error", category := "structure",
                     message := "ProjectPlan has no \x27phases\x27 attribute",
                     location := "ProjectPlan" }],
        passed := false, summary := "Critical structure error" }) ∧
    (∀ plan : ProjectPlan,
      (validate_project_plan (.obj plan)).issues =
        (check_phase_count plan.phases 5).issues ++
          (check_step_numbering plan.phases).issues ++
          (check_dependencies plan.phases).issues) :=
  ⟨rfl, fun _ => rfl⟩

/-- C10: for every plan whose framework record has frontend, backend and
storage all unset, `evaluate_technical_depth` with skill level "advanced"
applies the −2 "only trivial frameworks" penalty even though no framework
name is present at all, because the uses-only-trivial-names test is
vacuously true over the empty framework list. -/
theorem c10_advanced_empty_stack_gets_trivial_penalty :
    ∀ plan : ProjectPlan,
      plan.framework.frontend = none → plan.framework.backend = none →
      plan.framework.storage = none →
      frameworksList plan.framework = [] ∧
      (evaluate_technical_depth plan "advanced").score =
        max 0 (10 - (if depthScore plan < 4 then 3 else 0) - 2) := by
  intro plan h1 h2 h3
  constructor
  · simp [frameworksList, h1, h2, h3]
  · by_cases hd : depthScore plan < 4 <;>
      by_cases hb : depthScore plan ≥ 5 <;>
      by_cases hc : depthScore plan ≥ 3 <;>
      simp [evaluate_technical_depth, frameworksList, h1, h2, h3, hd, hb, hc]

/-- C10 witness: the empty plan has a fully unset stack, and the advanced
technical-depth score on it is `max 0 (10 - 3 - 2) = 5`. -/
theorem c10_witness_empty_plan :
    frameworksList emptyPlan.framework = [] ∧
    (evaluate_technical_depth emptyPlan "advanced").score =
      max 0 (10 - (if depthScore emptyPlan < 4 then 3 else 0) - 2) :=
  c10_advanced_empty_stack_gets_trivial_penalty emptyPlan rfl rfl rfl

/-- C2 (code bug): `evaluate_teaching_clarity` does not return a clamped
`RubricScore` on every structurally-present input — it raises `NameError`,
because the beginner skill adjustment and the no-penalty feedback string
both read the undefined name `learning_coverage` (the variable defined
10 lines earlier is called `guidance_coverage`).  Both raising paths are
exhibited: any plan scored with skill level "beginner", and the repository's
own happy path — a plan with full guidance coverage, long notes and
foundational/advanced phase names, scored as "intermediate". -/
theorem c2_teaching_clarity_raises_nameerror :
    evaluate_teaching_clarity emptyPlan "beginner" = Except.error teachingNameError ∧
    evaluate_teaching_clarity perfectTeachingPlan "intermediate" =
      Except.error teachingNameError :=
  ⟨rfl, rfl⟩

/-- Closed form of the clarity score: ceiling 10 minus the three
independent penalties, floored at 0. -/
lemma clarity_score_closed_form (t : String) :
    (evaluate_concept_clarity t).score =
      max 0 (10 - (if pyWordCount t < 10 then 3
                   else if pyWordCount t > 200 then 2 else 0)
               - (if vagueCount t > 2 then 2 else 0)
               - (if pyHasUpper t then 0 else 1)) := by
  unfold evaluate_concept_clarity
  dsimp only
  split_ifs <;> simp_all

/-- C4 counterexample: the claim says every text under 10 words scores
below the pass threshold 7, but `evaluate_concept_clarity "Hello"` (one
word, an uppercase letter, no vague words) scores exactly 7, which is not
below 7 (and meets the threshold). -/
theorem c4_counterexample_hello_scores_seven :
    pyWordCount "Hello" < 10 ∧
    (evaluate_concept_clarity "Hello").score = 7 ∧
    ¬((evaluate_concept_clarity "Hello").score < 7) ∧
    (evaluate_concept_clarity "Hello").passes = true := by
  refine ⟨by decide, by decide, by decide, by decide⟩

/-- C4 (amended): the clarity scorer starts from 10 and applies exactly the
penalties −3 (word count < 10), −2 (word count > 200), −2 (more than 2 of
the five vague words occur, each counted once), −1 (no uppercase
character), clamped at 0, with pass threshold 7; `clarity("")` scores 6 < 7,
every text under 10 words scores **at most** 7 (not necessarily below 7),
and a 40–60 word text with at most 2 vague words and an uppercase character
scores 10 ≥ 8. -/
theorem c4_clarity_penalty_structure :
    (∀ t : String,
      (evaluate_concept_clarity t).score =
        max 0 (10 - (if pyWordCount t < 10 then 3
                     else if pyWordCount t > 200 then 2 else 0)
                 - (if vagueCount t > 2 then 2 else 0)
                 - (if pyHasUpper t then 0 else 1)) ∧
      (evaluate_concept_clarity t).pass_threshold = 7) ∧
    ((evaluate_concept_clarity "").score = 6 ∧
      (evaluate_concept_clarity "").score < 7) ∧
    (∀ t : String, pyWordCount t < 10 → (evaluate_concept_clarity t).score ≤ 7) ∧
    (∀ t : String, 40 ≤ pyWordCount t → pyWordCount t ≤ 60 →
      vagueCount t ≤ 2 → pyHasUpper t = true →
      (evaluate_concept_clarity t).score = 10) := by
  refine ⟨fun t => ⟨clarity_score_closed_form t, rfl⟩, ⟨by decide, by decide⟩, ?_, ?_⟩
  · intro t h
    rw [clarity_score_closed_form t, if_pos h]
    split_ifs <;> norm_num
  · intro t h40 h60 hv hUp
    have h1 : ¬ (pyWordCount t < 10) := by omega
    have h2 : ¬ (pyWordCount t > 200) := by omega
    have h3 : ¬ (vagueCount t > 2) := by omega
    rw [clarity_score_closed_form t, if_neg h1, if_neg h2, if_neg h3, if_pos hUp]
    norm_num

/-- C4 witness: the amended bounds applied at concrete inputs — "Hello"
(one word) scores at most 7, and the 45-word uppercase text scores 10. -/
theorem c4_witness_concrete_bounds :
    (evaluate_concept_clarity "Hello").score ≤ 7 ∧
    (evaluate_concept_clarity fortyFiveWordText).score = 10 :=
  ⟨c4_clarity_penalty_structure.2.2.1 "Hello" (by decide),
   c4_clarity_penalty_structure.2.2.2 fortyFiveWordText (by decide) (by decide)
     (by decide) (by decide)⟩

/-- Every issue produced by the step-walk of `check_step_numbering` is a
warning. -/
lemma mem_snWalkSteps_warnings (ph : Phase) :
    ∀ (steps : List Step) (expected : Nat) (i : ConsistencyIssue),
      i ∈ (snWalkSteps ph expected steps).2.2 → i.severity = "warning" := by
  intro steps
  induction steps with
  | nil => intro e i h; simp [snWalkSteps] at h
  | cons s rest ih =>
    intro e i h
    unfold snWalkSteps at h
    dsimp only at h
    rw [List.mem_append] at h
    rcases h with h | h
    · split at h
      · simp only [List.mem_singleton] at h
        rw [h]
      · simp at h
    · exact ih (e + 1) i h

/-- Every issue produced by the phase-walk of `check_step_numbering` is a
warning. -/
lemma mem_snWalkPhases_warnings :
    ∀ (phases : List Phase) (expected : Nat) (i : ConsistencyIssue),
      i ∈ (snWalkPhases expected phases).2.2 → i.severity = "warning" := by
  intro phases
  induction phases with
  | nil => intro e i h; simp [snWalkPhases] at h
  | cons p rest ih =>
    intro e i h
    unfold snWalkPhases at h
    dsimp only at h
    rw [List.mem_append] at h
    rcases h with h | h
    · exact mem_snWalkSteps_warnings p p.steps e i h
    · exact ih _ _ h

/-- A list whose members all have severity "error" answers the
`has_errors` scan with its non-emptiness. -/
lemma any_error_of_all_error (l : List ConsistencyIssue)
    (h : ∀ i ∈ l, i.severity = "error") :
    (l.any (fun i => i.severity == "error")) = !l.isEmpty := by
  cases l with
  | nil => rfl
  | cons x xs =>
    have hx := h x (by simp)
    simp [List.any_cons, hx]

/-- A list whose members all have severity "warning" answers the
`has_errors` scan negatively. -/
lemma any_error_of_all_warning (l : List ConsistencyIssue)
    (h : ∀ i ∈ l, i.severity = "warning") :
    (l.any (fun i => i.severity == "error")) = false := by
  rw [List.any_eq_false]
  intro i hi
  rw [h i hi]
  decide

/-- `check_phase_count` reports issues of severity "error" only. -/
lemma check_phase_count_issues_error (phases : List Phase) (n : Nat) :
    ∀ i ∈ (check_phase_count phases n).issues, i.severity = "error" := by
  intro i hi
  unfold check_phase_count at hi
  split at hi <;> simp_all

/-- For `check_phase_count`, `passed` holds exactly when no error-severity
issue is present. -/
lemma check_phase_count_passed_iff (phases : List Phase) (n : Nat) :
    (check_phase_count phases n).passed = !(check_phase_count phases n).has_errors := by
  have hp : (check_phase_count phases n).passed = (check_phase_count phases n).issues.isEmpty := by
    unfold check_phase_count; split <;> rfl
  unfold ConsistencyReport.has_errors
  rw [any_error_of_all_error _ (check_phase_count_issues_error phases n), hp]
  simp

/-- The `isEmpty` scan commutes with `map`. -/
lemma isEmpty_map {α β : Type} (f : α → β) (l : List α) :
    (l.map f).isEmpty = l.isEmpty := by
  cases l <;> rfl

/-- For `check_step_numbering`, `passed` holds exactly when no
error-severity issue is present (warnings never clear `passed`). -/
lemma check_step_numbering_passed_iff (phases : List Phase) :
    (check_step_numbering phases).passed = !(check_step_numbering phases).has_errors := by
  unfold check_step_numbering ConsistencyReport.has_errors
  split
  · rfl
  · dsimp only
    rw [List.any_append,
      any_error_of_all_warning _ (fun i hi => mem_snWalkPhases_warnings _ _ i hi),
      any_error_of_all_error _ (by intro i hi; rw [List.mem_map] at hi; obtain ⟨d, _, rfl⟩ := hi; rfl)]
    simp [isEmpty_map]

/-- Each dependency issue carries severity "error" and category
"dependencies". -/
lemma depIssueFor_some_fields {valid : List Int} {p : Phase} {s : Step}
    {d : Int} {i : ConsistencyIssue} (h : depIssueFor valid p s d = some i) :
    i.severity = "error" ∧ i.category = "dependencies" := by
  unfold depIssueFor at h
  split_ifs at h <;> cases h <;> exact ⟨rfl, rfl⟩

/-- Each dependency issue's message is of one of the two source forms. -/
lemma depIssueFor_some_message {valid : List Int} {p : Phase} {s : Step}
    {d : Int} {i : ConsistencyIssue} (h : depIssueFor valid p s d = some i) :
    (∃ dd : Int, i.message = "References non-existent step " ++ toString dd) ∨
    (∃ dd j : Int, i.message = "References step " ++ toString dd ++
      " which is not earlier than current step " ++ toString j) := by
  unfold depIssueFor at h
  split_ifs at h <;> cases h
  · exact Or.inl ⟨d, rfl⟩
  · exact Or.inr ⟨d, s.index, rfl⟩

/-- Every issue of `check_dependencies` has severity "error" and category
"dependencies". -/
lemma check_dependencies_issues_error (phases : List Phase) :
    ∀ i ∈ (check_dependencies phases).issues,
      i.severity = "error" ∧ i.category = "dependencies" := by
  intro i hi
  unfold check_dependencies at hi
  split at hi
  · simp at hi
  · dsimp only at hi
    rw [List.mem_flatMap] at hi
    obtain ⟨p, _, hi⟩ := hi
    rw [List.mem_flatMap] at hi
    obtain ⟨s, _, hi⟩ := hi
    rw [List.mem_filterMap] at hi
    obtain ⟨d, _, hsome⟩ := hi
    exact depIssueFor_some_fields hsome

/-- For `check_dependencies`, `passed` holds exactly when no error-severity
issue is present. -/
lemma check_dependencies_passed_iff (phases : List Phase) :
    (check_dependencies phases).passed = !(check_dependencies phases).has_errors := by
  have hp : (check_dependencies phases).passed = (check_dependencies phases).issues.isEmpty := by
    unfold check_dependencies; split <;> rfl
  unfold ConsistencyReport.has_errors
  rw [any_error_of_all_error _ (fun i hi => (check_dependencies_issues_error phases i hi).1), hp]
  simp

/-- For `validate_project_plan`, `passed` holds exactly when no
error-severity issue is present. -/
lemma validate_passed_iff (arg : PlanArg) :
    (validate_project_plan arg).passed = !(validate_project_plan arg).has_errors := by
  cases arg with
  | noPhases => rfl
  | obj p =>
    unfold validate_project_plan ConsistencyReport.has_errors
    dsimp only
    rw [List.any_append, List.any_append]
    have h1 := check_phase_count_passed_iff p.phases 5
    have h2 := check_step_numbering_passed_iff p.phases
    have h3 := check_dependencies_passed_iff p.phases
    unfold ConsistencyReport.has_errors at h1 h2 h3
    rw [h1, h2, h3]
    simp [Bool.not_or]

/-- C7 counterexample: the claim says every report returned by validate has
the counts summary whenever its issue list is non-empty, but the
missing-`phases` short-circuit report has one error, zero warnings and the
summary "Critical structure error" — not "Found 1 errors and 0 warnings". -/
theorem c7_counterexample_structure_summary :
    (validate_project_plan .noPhases).issues ≠ [] ∧
    (validate_project_plan .noPhases).get_error_count = 1 ∧
    (validate_project_plan .noPhases).get_warning_count = 0 ∧
    (validate_project_plan .noPhases).summary = "Critical structure error" ∧
    (validate_project_plan .noPhases).summary ≠
      "Found " ++ toString (validate_project_plan .noPhases).get_error_count ++
        " errors and " ++
        toString (validate_project_plan .noPhases).get_warning_count ++ " warnings" :=
  ⟨by decide, by decide, by decide, rfl, by decide⟩

/-- C7 (amended): every ConsistencyReport returned by validate and by each
individual sub-check satisfies `passed = (no error-severity issue)` —
warnings alone never clear `passed` — and, **for plans that have a phases
collection**, validate's summary is the success message naming phase and
step totals when the issue list is empty and the error/warning counts
otherwise; the missing-`phases` short-circuit report instead carries the
fixed summary "Critical structure error". -/
theorem c7_report_invariants :
    (∀ (phases : List Phase) (n : Nat),
      (check_phase_count phases n).passed = !(check_phase_count phases n).has_errors) ∧
    (∀ phases : List Phase,
      (check_step_numbering phases).passed = !(check_step_numbering phases).has_errors) ∧
    (∀ phases : List Phase,
      (check_dependencies phases).passed = !(check_dependencies phases).has_errors) ∧
    (∀ arg : PlanArg,
      (validate_project_plan arg).passed = !(validate_project_plan arg).has_errors) ∧
    (∀ plan : ProjectPlan, (validate_project_plan (.obj plan)).issues = [] →
      (validate_project_plan (.obj plan)).summary =
        "All consistency checks passed: " ++ toString plan.phases.length ++
          " phases, " ++ toString (totalSteps plan.phases) ++ " steps") ∧
    (∀ plan : ProjectPlan, (validate_project_plan (.obj plan)).issues ≠ [] →
      (validate_project_plan (.obj plan)).summary =
        "Found " ++ toString (validate_project_plan (.obj plan)).get_error_count ++
          " errors and " ++
          toString (validate_project_plan (.obj plan)).get_warning_count ++ " warnings") ∧
    (validate_project_plan .noPhases).summary = "Critical structure error" := by
  refine ⟨check_phase_count_passed_iff, check_step_numbering_passed_iff,
    check_dependencies_passed_iff, validate_passed_iff, ?_, ?_, rfl⟩
  · intro plan h
    unfold validate_project_plan at h ⊢
    dsimp only at h ⊢
    rw [h]
    rfl
  · intro plan h
    unfold validate_project_plan at h ⊢
    dsimp only at h ⊢
    split
    · next hcond => exact absurd (List.isEmpty_iff.mp hcond) h
    · rfl

/-- C7 witness: the amended summary clauses applied at concrete inputs —
the clean 20-step plan gets the success summary with its totals, and the
phase-less empty plan (wrong phase count) gets the counts summary. -/
theorem c7_witness_concrete_summaries :
    (validate_project_plan (.obj goodPlan)).summary =
      "All consistency checks passed: " ++ toString goodPlan.phases.length ++
        " phases, " ++ toString (totalSteps goodPlan.phases) ++ " steps" ∧
    (validate_project_plan (.obj emptyPlan)).summary =
      "Found " ++ toString (validate_project_plan (.obj emptyPlan)).get_error_count ++
        " errors and " ++
        toString (validate_project_plan (.obj emptyPlan)).get_warning_count ++ " warnings" :=
  ⟨c7_report_invariants.2.2.2.2.1 goodPlan (by decide),
   c7_report_invariants.2.2.2.2.2.1 emptyPlan (by decide)⟩

/-- The dependency loop of one step yields exactly one issue per violating
dependency value. -/
lemma dep_filterMap_length (valid : List Int) (p : Phase) (s : Step) :
    ∀ l : List Int,
      (l.filterMap (depIssueFor valid p s)).length =
        ((l.map (fun d => (s.index, d))).filter (depViolation valid)).length := by
  intro l
  induction l with
  | nil => rfl
  | cons d rest ih =>
    by_cases h1 : d ∈ valid
    · by_cases h2 : s.index ≤ d
      · simp [List.filterMap_cons, depIssueFor, depViolation, List.elem_eq_mem,
          h1, h2, ih]
      · simp [List.filterMap_cons, depIssueFor, depViolation, List.elem_eq_mem,
          h1, h2, ih]
    · simp [List.filterMap_cons, depIssueFor, depViolation, List.elem_eq_mem,
        h1, ih]

/-- The dependency loop over one phase's steps yields exactly one issue per
violating pair. -/
lemma dep_steps_length (valid : List Int) (p : Phase) :
    ∀ steps : List Step,
      (steps.flatMap (fun s => s.dependencies.filterMap (depIssueFor valid p s))).length =
        ((steps.flatMap (fun s => s.dependencies.map (fun d => (s.index, d)))).filter
          (depViolation valid)).length := by
  intro steps
  induction steps with
  | nil => rfl
  | cons s rest ih =>
    rw [List.flatMap_cons, List.flatMap_cons, List.filter_append,
      List.length_append, List.length_append, dep_filterMap_length, ih]

/-- The full dependency check yields exactly one issue per violating pair. -/
lemma dep_phases_length (valid : List Int) :
    ∀ phases : List Phase,
      (phases.flatMap (fun p => p.steps.flatMap (fun s =>
          s.dependencies.filterMap (depIssueFor valid p s)))).length =
        ((phases.flatMap (fun p => p.steps.flatMap (fun s =>
          s.dependencies.map (fun d => (s.index, d))))).filter (depViolation valid)).length := by
  intro phases
  induction phases with
  | nil => rfl
  | cons p rest ih =>
    rw [List.flatMap_cons, List.flatMap_cons, List.filter_append,
      List.length_append, List.length_append, dep_steps_length, ih]

/-- Issue count of `check_dependencies`: one per violating pair. -/
lemma check_dependencies_length (phases : List Phase) :
    (check_dependencies phases).issues.length =
      ((depPairs phases).filter (depViolation (stepIndices phases))).length := by
  unfold check_dependencies
  split
  · next hempty =>
    rw [List.isEmpty_iff] at hempty
    subst hempty
    rfl
  · exact dep_phases_length (stepIndices phases) phases

/-- A pair fails the violation test exactly when its dependency value is a
valid index strictly below the declaring step's index. -/
lemma depViolation_false_iff (valid : List Int) (pr : Int × Int) :
    (¬ depViolation valid pr = true) ↔
      (valid.contains pr.2 = true ∧ pr.2 < pr.1) := by
  unfold depViolation
  simp [not_or]

/-- C3: `check_dependencies` reports one error per dependency value `d`
declared on a step of index `i` with `d` not an index of any step or
`d ≥ i`; each such issue has severity "error", category "dependencies" and
one of the two source messages ("non-existent step" / "not earlier than
current step"); no issue at all is emitted iff every dependency is a valid
strictly-earlier reference — no separate cycle-detection category exists. -/
theorem c3_dependency_errors_characterized :
    ∀ phases : List Phase,
      (∀ i ∈ (check_dependencies phases).issues,
        i.severity = "error" ∧ i.category = "dependencies" ∧
        ((∃ d : Int, i.message = "References non-existent step " ++ toString d) ∨
         (∃ d j : Int, i.message = "References step " ++ toString d ++
           " which is not earlier than current step " ++ toString j))) ∧
      (check_dependencies phases).issues.length =
        ((depPairs phases).filter (depViolation (stepIndices phases))).length ∧
      ((check_dependencies phases).issues = [] ↔
        ∀ pr ∈ depPairs phases,
          (stepIndices phases).contains pr.2 = true ∧ pr.2 < pr.1) := by
  intro phases
  refine ⟨?_, check_dependencies_length phases, ?_⟩
  · intro i hi
    have hfields := check_dependencies_issues_error phases i hi
    unfold check_dependencies at hi
    split at hi
    · simp at hi
    · dsimp only at hi
      rw [List.mem_flatMap] at hi
      obtain ⟨p, _, hi⟩ := hi
      rw [List.mem_flatMap] at hi
      obtain ⟨s, _, hi⟩ := hi
      rw [List.mem_filterMap] at hi
      obtain ⟨d, _, hsome⟩ := hi
      exact ⟨hfields.1, hfields.2, depIssueFor_some_message hsome⟩
  · rw [← List.length_eq_zero, check_dependencies_length, List.length_eq_zero,
      List.filter_eq_nil_iff]
    exact forall_congr' fun pr => forall_congr' fun _ =>
      depViolation_false_iff (stepIndices phases) pr

/-- Every member of `intRange s n` is at least `s`. -/
lemma intRange_le_mem : ∀ (n : Nat) (s x : Int), x ∈ intRange s n → s ≤ x := by
  intro n
  induction n with
  | zero => intro s x h; simp [intRange] at h
  | succ m ih =>
    intro s x h
    rw [intRange, List.mem_cons] at h
    rcases h with h | h
    · omega
    · have := ih (s + 1) x h
      omega

/-- `intRange` has no duplicates. -/
lemma intRange_nodup : ∀ (n : Nat) (s : Int), (intRange s n).Nodup := by
  intro n
  induction n with
  | zero => intro s; simp [intRange]
  | succ m ih =>
    intro s
    rw [intRange]
    refine List.Nodup.cons (fun h => ?_) (ih (s + 1))
    have := intRange_le_mem m (s + 1) s h
    omega

/-- Length of `intRange`. -/
lemma intRange_length : ∀ (n : Nat) (s : Int), (intRange s n).length = n := by
  intro n
  induction n with
  | zero => intro s; rfl
  | succ m ih => intro s; rw [intRange, List.length_cons, ih]

/-- `intRange` splits over a sum of lengths. -/
lemma intRange_append : ∀ (m n : Nat) (s : Int),
    intRange s (m + n) = intRange s m ++ intRange (s + m) n := by
  intro m
  induction m with
  | zero => intro n s; simp [intRange]
  | succ k ih =>
    intro n s
    have hadd : k + 1 + n = (k + n) + 1 := by omega
    rw [hadd, intRange, intRange, List.cons_append, ih n (s + 1)]
    have : s + 1 + (k : Int) = s + (k + 1 : Nat) := by push_cast; ring
    rw [this]

/-- The step-level walk of `check_step_numbering`: the counter advances by
the number of steps, the collected indices are the steps' indices in
order, and the warnings count the positions where the index differs from
the running counter. -/
lemma snWalkSteps_spec (ph : Phase) :
    ∀ (steps : List Step) (expected : Nat),
      (snWalkSteps ph expected steps).1 = expected + steps.length ∧
      (snWalkSteps ph expected steps).2.1 = steps.map (·.index) ∧
      (snWalkSteps ph expected steps).2.2.length =
        ((steps.map (·.index)).zip (intRange (expected : Int) steps.length)).countP
          (fun pr => pr.1 != pr.2) := by
  intro steps
  induction steps with
  | nil => intro e; refine ⟨by simp [snWalkSteps], rfl, rfl⟩
  | cons s rest ih =>
    intro e
    obtain ⟨ih1, ih2, ih3⟩ := ih (e + 1)
    unfold snWalkSteps
    dsimp only
    refine ⟨?_, ?_, ?_⟩
    · rw [ih1]; simp; omega
    · rw [ih2, List.map_cons]
    · rw [List.length_append, ih3, List.map_cons, List.length_cons, intRange]
      have hcast : ((e + 1 : Nat) : Int) = (e : Int) + 1 := by push_cast; ring
      rw [hcast, List.zip_cons_cons, List.countP_cons]
      by_cases h : s.index = (e : Int)
      · simp [h]
      · simp [h]
        omega

/-- `stepIndices` has one entry per step. -/
lemma stepIndices_length :
    ∀ phases : List Phase, (stepIndices phases).length = totalSteps phases := by
  intro phases
  induction phases with
  | nil => rfl
  | cons p rest ih =>
    unfold stepIndices totalSteps at *
    rw [List.flatMap_cons, List.length_append, List.map_cons, List.sum_cons,
      List.length_map, ih]

/-- The phase-level walk of `check_step_numbering`: counter, collected
indices and warning count, with the counter threading across phase
boundaries. -/
lemma snWalkPhases_spec :
    ∀ (phases : List Phase) (expected : Nat),
      (snWalkPhases expected phases).1 = expected + totalSteps phases ∧
      (snWalkPhases expected phases).2.1 = stepIndices phases ∧
      (snWalkPhases expected phases).2.2.length =
        ((stepIndices phases).zip (intRange (expected : Int) (totalSteps phases))).countP
          (fun pr => pr.1 != pr.2) := by
  intro phases
  induction phases with
  | nil =>
    intro e
    refine ⟨by simp [snWalkPhases, totalSteps], rfl, rfl⟩
  | cons p rest ih =>
    intro e
    obtain ⟨s1, s2, s3⟩ := snWalkSteps_spec p p.steps e
    obtain ⟨r1, r2, r3⟩ := ih (e + p.steps.length)
    unfold snWalkPhases
    dsimp only
    have htot : totalSteps (p :: rest) = p.steps.length + totalSteps rest := by
      unfold totalSteps
      rw [List.map_cons, List.sum_cons]
    refine ⟨?_, ?_, ?_⟩
    · rw [s1, r1, htot]; omega
    · rw [s1, s2, r2]
      unfold stepIndices
      rw [List.flatMap_cons]
    · rw [List.length_append, s1, s3, r3, htot]
      have hsplit : intRange (e : Int) (p.steps.length + totalSteps rest) =
          intRange (e : Int) p.steps.length ++
            intRange ((e : Int) + p.steps.length) (totalSteps rest) :=
        intRange_append p.steps.length (totalSteps rest) (e : Int)
      have hcast : ((e + p.steps.length : Nat) : Int) = (e : Int) + p.steps.length := by
        push_cast; ring
      rw [hcast]
      have hzip : stepIndices (p :: rest) =
          p.steps.map (·.index) ++ stepIndices rest := by
        unfold stepIndices
        rw [List.flatMap_cons]
      rw [hzip, hsplit, List.zip_append (by rw [List.length_map, intRange_length]),
        List.countP_append]

/-- A zip-against-`intRange` mismatch count of zero forces the list to be
the range itself. -/
lemma countP_zip_zero_iff :
    ∀ (l : List Int) (start : Int),
      ((l.zip (intRange start l.length)).countP (fun pr => pr.1 != pr.2) = 0) ↔
        l = intRange start l.length := by
  intro l
  induction l with
  | nil => intro start; simp [intRange]
  | cons a rest ih =>
    intro start
    rw [List.length_cons, intRange, List.zip_cons_cons, List.countP_cons]
    constructor
    · intro h
      obtain ⟨h1, h2⟩ := Nat.add_eq_zero.mp h
      have ha : a = start := by
        by_cases hb : a = start
        · exact hb
        · simp [hb] at h2
      rw [List.cons_eq_cons]
      exact ⟨ha, (ih (start + 1)).mp h1⟩
    · intro h
      rw [List.cons_eq_cons] at h
      obtain ⟨ha, hrest⟩ := h
      have := (ih (start + 1)).mpr hrest
      simp [ha, this]

/-- A duplicate-free index list produces no duplicate errors. -/
lemma duplicates_nil_of_nodup (l : List Int) (h : l.Nodup) :
    l.eraseDups.filter (fun v => l.count v > 1) = [] := by
  rw [List.filter_eq_nil_iff]
  intro v _
  have := List.nodup_iff_count_le_one.mp h v
  simp
  omega

/-- C5: `check_step_numbering` emits one warning per step position whose
index differs from the running counter that starts at 1 and increments
once per step in phase order, and one error per index value occurring more
than once across the plan; it emits no issue at all iff the step indices,
read in phase order, are exactly the sequence `1..M`. -/
theorem c5_step_numbering_characterized :
    ∀ phases : List Phase,
      ((check_step_numbering phases).issues.filter
          (fun i => i.severity == "warning")).length =
        ((stepIndices phases).zip
          (intRange 1 (stepIndices phases).length)).countP (fun pr => pr.1 != pr.2) ∧
      ((check_step_numbering phases).issues.filter
          (fun i => i.severity == "error")).length =
        ((stepIndices phases).eraseDups.filter
          (fun v => (stepIndices phases).count v > 1)).length ∧
      ((check_step_numbering phases).issues = [] ↔
        stepIndices phases = intRange 1 (stepIndices phases).length) := by
  intro phases
  by_cases hemp : phases.isEmpty = true
  · rw [List.isEmpty_iff] at hemp
    subst hemp
    exact ⟨rfl, rfl, by constructor <;> intro <;> rfl⟩
  · obtain ⟨w1, w2, w3⟩ := snWalkPhases_spec phases 1
    have hcast : ((1 : Nat) : Int) = 1 := by norm_num
    rw [hcast] at w3
    have hlen := stepIndices_length phases
    unfold check_step_numbering
    rw [if_neg hemp]
    dsimp only
    rw [w2]
    have hwarnall : ∀ i ∈ (snWalkPhases 1 phases).2.2, i.severity = "warning" :=
      fun i hi => mem_snWalkPhases_warnings phases 1 i hi
    refine ⟨?_, ?_, ?_⟩
    · rw [List.filter_append, List.length_append]
      rw [List.filter_eq_self.mpr (fun i hi => by rw [hwarnall i hi]; decide)]
      rw [List.filter_eq_nil_iff.mpr (fun i hi => by
        rw [List.mem_map] at hi
        obtain ⟨d, _, rfl⟩ := hi
        simp)]
      rw [w3, hlen]
      rfl
    · rw [List.filter_append, List.length_append]
      rw [List.filter_eq_nil_iff.mpr (fun i hi => by
        rw [hwarnall i hi]; decide)]
      rw [List.filter_eq_self.mpr (fun i hi => by
        rw [List.mem_map] at hi
        obtain ⟨d, _, rfl⟩ := hi
        simp)]
      rw [List.length_map]
      simp
    · rw [List.append_eq_nil]
      constructor
      · rintro ⟨hw, _⟩
        have hz : (snWalkPhases 1 phases).2.2.length = 0 := by rw [hw]; rfl
        rw [w3, ← hlen] at hz
        exact (countP_zip_zero_iff (stepIndices phases) 1).mp hz
      · intro heq
        constructor
        · have hz := (countP_zip_zero_iff (stepIndices phases) 1).mpr heq
          rw [hlen] at hz
          rw [← w3] at hz
          exact List.length_eq_zero.mp hz
        · rw [List.map_eq_nil_iff]
          refine duplicates_nil_of_nodup (stepIndices phases) ?_
          rw [heq]
          exact intRange_nodup (stepIndices phases).length 1

/-- C1 (amended): a successful `evaluate_plan_quality` run returns
`approved = true` iff its critical-issue list is empty AND every
RubricScore meets its own pass threshold.  Zero consistency errors plus
all-scores-passing is necessary for approval but not sufficient: the
per-step guidance, ambiguity, triviality and time-budget checks also feed
the critical list.  Any failing score still forces `approved = false`
(the flip direction of the original claim). -/
theorem c1_approved_iff_no_criticals_and_scores_pass :
    ∀ (plan : ProjectPlan) (skill_level project_type time_constraint : String)
      (r : EvaluationResult),
      evaluate_plan_quality plan skill_level project_type time_constraint =
        Except.ok r →
      ((r.approved = true ↔
        (r.critical_issues = [] ∧ r.scores.values.all RubricScore.passes = true)) ∧
       (r.approved = true → r.consistency_report.has_errors = false) ∧
       (r.scores.values.all RubricScore.passes = false → r.approved = false)) := by
  intro plan sl pt tc r h
  unfold evaluate_plan_quality at h
  cases hT : evaluate_teaching_clarity plan sl with
  | error e =>
    rw [hT] at h
    dsimp only at h
    exact Except.noConfusion h
  | ok ts =>
    rw [hT] at h
    dsimp only at h
    rw [Except.ok.injEq] at h
    subst h
    dsimp only
    refine ⟨?_, ?_, ?_⟩
    · simp [Bool.and_eq_true, List.isEmpty_iff]
    · intro hA
      rw [Bool.and_eq_true] at hA
      obtain ⟨hC, -⟩ := hA
      rw [List.isEmpty_iff] at hC
      simp only [List.append_eq_nil] at hC
      obtain ⟨⟨⟨⟨⟨⟨⟨⟨⟨h0, -⟩, -⟩, -⟩, -⟩, -⟩, -⟩, -⟩, -⟩, -⟩ := hC
      cases hE : (validate_project_plan (.obj plan)).has_errors with
      | false => rfl
      | true =>
        unfold consistencyCriticals at h0
        rw [if_pos hE] at h0
        exact absurd h0 (List.cons_ne_nil _ _)
    · intro hP
      rw [hP]
      simp

/-- C1 counterexample: on the short-guidance plan the consistency report
has zero errors and every one of the five RubricScores passes its
threshold, yet `approved = false` — the per-step guidance check raised a
critical issue.  This refutes the claimed "if and only if". -/
theorem c1_counterexample_guidance_blocks_approval :
    evaluate_plan_quality cePlan "intermediate" "medium" "2 weeks" =
      Except.ok ceResult ∧
    ceResult.consistency_report.has_errors = false ∧
    ceResult.scores.values.all RubricScore.passes = true ∧
    ceResult.approved = false :=
  ⟨rfl, rfl, rfl, rfl⟩

/-- C1 witness: the amended equivalence applied at the fully good 20-step
plan, whose evaluation succeeds and is approved. -/
theorem c1_witness_good_plan_approved :
    evaluate_plan_quality goodPlan "intermediate" "medium" "2 weeks" =
      Except.ok goodResult ∧
    goodResult.approved = true ∧
    (goodResult.approved = true ↔
      (goodResult.critical_issues = [] ∧
        goodResult.scores.values.all RubricScore.passes = true)) :=
  ⟨rfl, rfl,
   (c1_approved_iff_no_criticals_and_scores_pass goodPlan "intermediate"
     "medium" "2 weeks" goodResult rfl).1⟩
